import Mathlib

/-
Verification development for the expo-razorpay checkout controller and
WebView bridge.

The embedding below translates the two core source files:
  * src/types/index.ts (the useRazorpay hook: state, openCheckout,
    closeCheckout, cleanup, RazorpayUI wiring)
  * src/components/razorpayCheckout.tsx (the RazorpayCheckout bridge:
    injected widget script, handleMessage, handleNavigation)
Host-visible callback invocations and other side effects are made explicit
as an effect list. The hook's three React state cells (isVisible,
checkoutOptions, callbacks) are one record; a setTimeout-scheduled clear is
a pending-clear counter plus an explicit fire action.
-/

namespace ExpoRazorpay

/-- Dynamic JavaScript-like values used for the opaque payloads the system
relays (options objects, widget responses, bridge messages). `fn` stands
for a JavaScript function value, identified by a tag. -/
inductive JSVal where
  | undefined : JSVal
  | str : String → JSVal
  | num : Int → JSVal
  | boolean : Bool → JSVal
  | fn : String → JSVal
  | obj : List (String × JSVal) → JSVal

/-- JavaScript property access `v[k]`: `undefined` when the key is absent
or the value is not an object. -/
def JSVal.get (v : JSVal) (k : String) : JSVal :=
  match v with
  | .obj fs =>
      match fs.lookup k with
      | some w => w
      | none => .undefined
  | _ => .undefined

/-- Test whether a dynamic value is a given string (models the source's
`message.type === 'PAYMENT_SUCCESS'` comparisons). -/
def JSVal.isStr (v : JSVal) (s : String) : Bool :=
  match v with
  | .str t => t == s
  | _ => false

/-- The host-supplied callback record passed to `openCheckout`
(CheckoutCallbacks in src/types/index.ts). The functions themselves are
opaque; `ident` distinguishes distinct records, and `hasOnClose` records
whether the optional `onClose` member is present. -/
structure CheckoutCallbacks where
  ident : Nat
  hasOnClose : Bool
deriving DecidableEq

/-- The three React state cells of the `useRazorpay` hook, plus a counter
of scheduled-but-not-yet-fired `setTimeout` clear callbacks. -/
structure HookState where
  isVisible : Bool
  checkoutOptions : Option JSVal
  callbacks : Option CheckoutCallbacks
  pendingClears : Nat

/-- Observable side effects, in program order: state-setter calls on the
visibility cell, host callback invocations, `setTimeout` scheduling, and
the bridge's `Linking.openURL` / `console.error` at the navigation
boundary. -/
inductive Eff where
  | setVisible (b : Bool)
  | callOnSuccess (c : CheckoutCallbacks) (arg : JSVal)
  | callOnFailure (c : CheckoutCallbacks) (arg : JSVal)
  | callOnClose (c : CheckoutCallbacks)
  | scheduleClear (delayMs : Nat)
  | openExternal (url : String)
  | logError (note : String)

/-- `cleanup` from src/types/index.ts: `setIsVisible(false)` then
`setTimeout(() => { setCallbacks(null); setCheckoutOptions(null) }, 100)`. -/
def cleanup (s : HookState) : HookState × List Eff :=
  ({ s with isVisible := false, pendingClears := s.pendingClears + 1 },
   [Eff.setVisible false, Eff.scheduleClear 100])

/-- `openCheckout` from src/types/index.ts: `if (isVisible) return;` then
store options and callbacks and set visibility. -/
def openCheckout (opts : JSVal) (cbs : CheckoutCallbacks) (s : HookState) :
    HookState × List Eff :=
  if s.isVisible then (s, [])
  else
    ({ s with checkoutOptions := some opts, callbacks := some cbs,
              isVisible := true },
     [Eff.setVisible true])

/-- `closeCheckout` from src/types/index.ts: `setIsVisible(false)`, then
`if (callbacks?.onClose) callbacks.onClose()`, then schedule the clear
with `setTimeout(..., 100)`. -/
def closeCheckout (s : HookState) : HookState × List Eff :=
  let closeEffs : List Eff :=
    match s.callbacks with
    | some c => if c.hasOnClose then [Eff.callOnClose c] else []
    | none => []
  ({ s with isVisible := false, pendingClears := s.pendingClears + 1 },
   Eff.setVisible false :: (closeEffs ++ [Eff.scheduleClear 100]))

/-- The body of the scheduled `setTimeout` callback firing:
`setCallbacks(null); setCheckoutOptions(null)` — visibility untouched. -/
def fireClear (s : HookState) : HookState :=
  if s.pendingClears = 0 then s
  else { s with callbacks := none, checkoutOptions := none,
                pendingClears := s.pendingClears - 1 }

/-- Bridge messages posted by the injected widget script: the success
handler installed by the bridge (razorpayCheckout.tsx htmlContent step 2)
posts `{type: 'PAYMENT_SUCCESS', data: response}`. -/
def mkSuccessMsg (response : JSVal) : JSVal :=
  .obj [("type", .str "PAYMENT_SUCCESS"), ("data", response)]

/-- The failure subscription installed by the bridge (htmlContent step 4)
posts `{type: 'PAYMENT_FAILED', error: response.error}` from the widget's
`payment.failed` response. -/
def mkFailedMsg (response : JSVal) : JSVal :=
  .obj [("type", .str "PAYMENT_FAILED"), ("error", response.get "error")]

/-- The dismiss handler installed by the bridge (htmlContent step 3) posts
`{type: 'PAYMENT_CLOSED'}` when the user closes the widget popup. -/
def mkClosedMsg : JSVal :=
  .obj [("type", .str "PAYMENT_CLOSED")]

/-- Delivery of one bridge message to the system. The bridge is mounted
exactly when `RazorpayUI` is non-null, i.e. `isVisible && checkoutOptions
&& callbacks` (src/types/index.ts). `handleMessage`
(razorpayCheckout.tsx) dispatches on `message.type`; the hook wires the
bridge props as
`onSuccess = (data) => { callbacks.onSuccess(data); cleanup() }`,
`onFailure = (error) => { callbacks.onFailure(error.error); cleanup() }`,
`onClose = closeCheckout`. -/
def deliverMessage (m : JSVal) (s : HookState) : HookState × List Eff :=
  match s.isVisible, s.checkoutOptions, s.callbacks with
  | true, some _, some c =>
      if (m.get "type").isStr "PAYMENT_SUCCESS" then
        let r := cleanup s
        (r.1, Eff.callOnSuccess c (m.get "data") :: r.2)
      else if (m.get "type").isStr "PAYMENT_FAILED" then
        let r := cleanup s
        (r.1, Eff.callOnFailure c ((m.get "error").get "error") :: r.2)
      else if (m.get "type").isStr "PAYMENT_CLOSED" then
        closeCheckout s
      else (s, [])
  | _, _, _ => (s, [])

/-- JavaScript `url.startsWith(p)`, modelled on the character sequence of
the string. -/
def jsStartsWith (s p : String) : Bool := p.data.isPrefixOf s.data

/-- `handleNavigation` from razorpayCheckout.tsx: URLs failing
`!url.startsWith('http') && !url.startsWith('https') &&
!url.startsWith('about:blank')` are sent to `Linking.openURL` (whose
rejection is caught and logged) and the function returns `false` (do not
load); all other URLs return `true` (load normally). The `dispatch`
argument is the environment's outcome for `Linking.openURL url`. -/
def handleNavigation (url : String) (dispatch : Except String Unit) :
    Bool × List Eff :=
  if !(jsStartsWith url "http") && !(jsStartsWith url "https")
      && !(jsStartsWith url "about:blank") then
    match dispatch with
    | .ok _ => (false, [Eff.openExternal url])
    | .error _ =>
        (false, [Eff.openExternal url, Eff.logError "Couldnt open UPI app"])
  else (true, [])

/-- Removal of the host-supplied handler on mount:
`const { handler, ...optionsWithoutHandler } = options` in
razorpayCheckout.tsx, over an options object given as key/value fields. -/
def optionsWithoutHandler (options : List (String × JSVal)) :
    List (String × JSVal) :=
  options.filter (fun p => !(p.1 == "handler"))

/-- JavaScript property assignment `o[k] = v` on an object given as
key/value fields. -/
def setField (fs : List (String × JSVal)) (k : String) (v : JSVal) :
    List (String × JSVal) :=
  fs.filter (fun p => !(p.1 == k)) ++ [(k, v)]

/-- The bridge's own success handler installed by the injected script
(htmlContent step 2: posts PAYMENT_SUCCESS to React Native). -/
def bridgeSuccessHandler : JSVal := .fn "postPaymentSuccessToReactNative"

/-- The bridge's dismiss handler installed by the injected script
(htmlContent step 3: posts PAYMENT_CLOSED to React Native). -/
def bridgeDismissHandler : JSVal := .fn "postPaymentClosedToReactNative"

/-- The widget options in effect when `new Razorpay(options)` runs inside
the page: the serialized `optionsWithoutHandler`, then
`options.handler = ...` (step 2) and `options.modal = {ondismiss: ...}`
(step 3) assigned by the injected script. -/
def installedWidgetOptions (options : List (String × JSVal)) :
    List (String × JSVal) :=
  setField
    (setField (optionsWithoutHandler options) "handler" bridgeSuccessHandler)
    "modal" (.obj [("ondismiss", bridgeDismissHandler)])

/-- System actions: host calls (`openCheckout` / `closeCheckout`), a
scheduled clear firing, a bridge message arriving, and a navigation
request decided inside the WebView. -/
inductive Act where
  | openC (opts : JSVal) (cbs : CheckoutCallbacks)
  | closeC
  | fireC
  | msg (m : JSVal)
  | nav (url : String) (dispatch : Except String Unit)

/-- One event-loop turn. The navigation handler lives inside the bridge
component and performs no state-setter call, so it leaves the hook state
unchanged by construction of the source. -/
def step (a : Act) (s : HookState) : HookState × List Eff :=
  match a with
  | .openC o c => openCheckout o c s
  | .closeC => closeCheckout s
  | .fireC => (fireClear s, [])
  | .msg m => deliverMessage m s
  | .nav u d => (s, (handleNavigation u d).2)

/-- Run a sequence of actions, concatenating the effects in order. -/
def run : List Act → HookState → HookState × List Eff
  | [], s => (s, [])
  | a :: rest, s =>
      let r := step a s
      let r2 := run rest r.1
      (r2.1, r.2 ++ r2.2)

/-- The hook's initial state: `useState(false)`, `useState(null)`,
`useState(null)`, nothing scheduled. -/
def initialState : HookState :=
  { isVisible := false, checkoutOptions := none, callbacks := none,
    pendingClears := 0 }

/-- Effect classifier: terminal host callback (onSuccess or onFailure) for
a given callback record. -/
def Eff.isTerminalFor (c : CheckoutCallbacks) : Eff → Bool
  | .callOnSuccess c' _ => decide (c' = c)
  | .callOnFailure c' _ => decide (c' = c)
  | _ => false

/-- Effect classifier: any host callback invocation for a given callback
record. -/
def Eff.isForCbs (c : CheckoutCallbacks) : Eff → Bool
  | .callOnSuccess c' _ => decide (c' = c)
  | .callOnFailure c' _ => decide (c' = c)
  | .callOnClose c' => decide (c' = c)
  | _ => false

/-- Effect classifier: any host callback invocation. -/
def Eff.isCallbackCall : Eff → Bool
  | .callOnSuccess _ _ => true
  | .callOnFailure _ _ => true
  | .callOnClose _ => true
  | _ => false

/-- Effect classifier: an onFailure invocation. -/
def Eff.isFailureCall : Eff → Bool
  | .callOnFailure _ _ => true
  | _ => false

/-- Number of terminal callbacks delivered to the record `c`. -/
def terminalsFor (c : CheckoutCallbacks) (effs : List Eff) : Nat :=
  effs.countP (Eff.isTerminalFor c)

/-- The subsequence of host-callback invocations delivered to `c`. -/
def callbackCallsFor (c : CheckoutCallbacks) (effs : List Eff) : List Eff :=
  effs.filter (Eff.isForCbs c)

/-- How many of the given actions are `openCheckout` calls carrying the
callback record `c`. -/
def actOpens (c : CheckoutCallbacks) : Act → Nat
  | .openC _ c' => if c' = c then 1 else 0
  | _ => 0

/-- Total `openCheckout` calls carrying `c` in an action sequence. -/
def opensFor (c : CheckoutCallbacks) (acts : List Act) : Nat :=
  (acts.map (actOpens c)).sum

/-- Session indicator: 1 when the state holds `c` as the live callback
record with the surface visible (the only situation in which a message can
deliver a terminal callback to `c`). -/
def sessInd (c : CheckoutCallbacks) (s : HookState) : Nat :=
  if s.isVisible = true ∧ s.callbacks = some c then 1 else 0

/-- Spec-side definition (the claims speak of a URL's scheme): the scheme
is the part of the URL before the first colon. -/
def urlScheme (u : String) : String :=
  ⟨u.data.takeWhile (fun c => !(c == ':'))⟩

/-- Spec-side definition: the web schemes named by the spec. -/
def isWebScheme (s : String) : Bool := s == "http" || s == "https"

/-- IDLE in the spec's sense: no stored request, no stored callbacks, not
visible. -/
def IdleState (s : HookState) : Prop :=
  s.isVisible = false ∧ s.checkoutOptions = none ∧ s.callbacks = none

/-- The state the host can observe: the visibility flag and the stored
request/callbacks (which determine the rendered `RazorpayUI`). The
pending-timer counter is invisible to the host. -/
def observable (s : HookState) :
    Bool × Option JSVal × Option CheckoutCallbacks :=
  (s.isVisible, s.checkoutOptions, s.callbacks)

/-- A sample callback record that does supply the optional onClose. -/
def cbMain : CheckoutCallbacks := { ident := 1, hasOnClose := true }

/-- A second, distinct sample callback record. -/
def cbOther : CheckoutCallbacks := { ident := 2, hasOnClose := false }

/-- The spec scenario's options object. -/
def demoOpts : JSVal :=
  .obj [("key", .str "k1"), ("amount", .num 500), ("currency", .str "INR"),
        ("order_id", .str "o1"), ("name", .str "Shop")]

/-- The spec scenario's success response from the widget. -/
def successResponse : JSVal :=
  .obj [("razorpay_payment_id", .str "p1"), ("razorpay_order_id", .str "o1"),
        ("razorpay_signature", .str "sig")]

/-- A widget `payment.failed` response: per the repository's own
`RazorpayErrorResponse` declaration its `error` member carries the flat
error object. -/
def gatewayError : JSVal :=
  .obj [("code", .str "GATEWAY_ERROR"), ("description", .str "Bank declined"),
        ("source", .str "gateway"), ("step", .str "payment_authorization"),
        ("reason", .str "payment_failed")]

/-- The full `payment.failed` response, as typed by
`RazorpayErrorResponse` in src/types/index.ts. -/
def failedWidgetResponse : JSVal := .obj [("error", gatewayError)]

/-- A concrete mounted (ACTIVE) state used by witnesses. -/
def activeState : HookState :=
  { isVisible := true, checkoutOptions := some demoOpts,
    callbacks := some cbMain, pendingClears := 0 }

/-- Looking up a key in a list from which that key has been filtered out
finds nothing. -/
theorem lookup_filter_out (fs : List (String × JSVal)) (k : String) :
    (fs.filter (fun p => !(p.1 == k))).lookup k = none := by
  induction fs with
  | nil => rfl
  | cons p rest ih =>
      by_cases h : p.1 = k
      · simp [List.filter_cons, h, ih]
      · have hb : (p.1 == k) = false := by simp [h]
        have hb' : (k == p.1) = false := by
          simp only [beq_eq_false_iff_ne]
          exact fun e => h e.symm
        simp [List.filter_cons, hb, List.lookup, hb', ih]

/-- Lookup distributes over append when the first list misses the key. -/
theorem lookup_append_of_none (l1 l2 : List (String × JSVal)) (k : String)
    (h : l1.lookup k = none) : (l1 ++ l2).lookup k = l2.lookup k := by
  induction l1 with
  | nil => rfl
  | cons p rest ih =>
      obtain ⟨a, b⟩ := p
      by_cases hk : k = a
      · have hb : (k == a) = true := by simp [hk]
        simp only [List.lookup, hb] at h
        exact absurd h (by simp)
      · have hb : (k == a) = false := by simp [hk]
        simp only [List.cons_append, List.lookup, hb] at h ⊢
        exact ih h

/-- Lookup stops at a hit in the first part of an append. -/
theorem lookup_append_of_some (l1 l2 : List (String × JSVal)) (k : String)
    (v : JSVal) (h : l1.lookup k = some v) : (l1 ++ l2).lookup k = some v := by
  induction l1 with
  | nil =>
      simp only [List.lookup] at h
      exact absurd h (by simp)
  | cons p rest ih =>
      obtain ⟨a, b⟩ := p
      by_cases hk : k = a
      · have hb : (k == a) = true := by simp [hk]
        simp only [List.cons_append, List.lookup, hb] at h ⊢
        exact h
      · have hb : (k == a) = false := by simp [hk]
        simp only [List.cons_append, List.lookup, hb] at h ⊢
        exact ih h

/-- Filtering out a different key does not change a lookup. -/
theorem lookup_filter_ne (fs : List (String × JSVal)) (k k' : String)
    (h : k ≠ k') : (fs.filter (fun p => !(p.1 == k'))).lookup k = fs.lookup k := by
  induction fs with
  | nil => rfl
  | cons p rest ih =>
      by_cases hp : p.1 = k'
      · have hb : (p.1 == k') = true := by simp [hp]
        have hk : (k == p.1) = false := by
          simp only [beq_eq_false_iff_ne]
          exact fun e => h (e.trans hp)
        simp [List.filter_cons, hb, List.lookup, hk, ih]
      · have hb : (p.1 == k') = false := by simp [hp]
        by_cases hk : k = p.1
        · simp [List.filter_cons, hb, List.lookup, hk]
        · have hk' : (k == p.1) = false := by simp [hk]
          simp [List.filter_cons, hb, List.lookup, hk', ih]

/-- C9: for every host-supplied options object, the payload serialized
into the widget's initialization script (`optionsWithoutHandler`) carries
no handler field, and the handler actually installed on the widget by the
injected script is the bridge's own message-posting handler, regardless of
host input. -/
theorem handler_always_overridden (options : List (String × JSVal)) :
    (optionsWithoutHandler options).lookup "handler" = none ∧
    (installedWidgetOptions options).lookup "handler"
      = some bridgeSuccessHandler := by
  constructor
  · exact lookup_filter_out options "handler"
  · show (setField (setField (optionsWithoutHandler options) "handler"
        bridgeSuccessHandler) "modal"
        (.obj [("ondismiss", bridgeDismissHandler)])).lookup "handler"
      = some bridgeSuccessHandler
    have h1 : (setField (optionsWithoutHandler options) "handler"
        bridgeSuccessHandler).lookup "handler" = some bridgeSuccessHandler := by
      unfold setField
      refine lookup_append_of_none _ _ _ ?_ |>.trans ?_
      · exact lookup_filter_out _ "handler"
      · rfl
    unfold setField
    refine lookup_append_of_some _ _ _ _ ?_
    rw [lookup_filter_ne _ "handler" "modal" (by decide)]
    exact h1

/-- C4: openCheckout calls made while the controller is visible (ACTIVE)
are silent no-ops: stored parameters, callbacks and visibility are left
entirely unchanged and no callback fires; from the non-visible state the
call stores the request and callbacks and flips visibility. -/
theorem openCheckout_noop_while_active :
    (∀ (o : JSVal) (c : CheckoutCallbacks) (s : HookState),
        s.isVisible = true → openCheckout o c s = (s, [])) ∧
    (∀ (o : JSVal) (c : CheckoutCallbacks) (s : HookState),
        s.isVisible = false →
          (openCheckout o c s).1.checkoutOptions = some o ∧
          (openCheckout o c s).1.callbacks = some c ∧
          (openCheckout o c s).1.isVisible = true) := by
  constructor
  · intro o c s h
    simp [openCheckout, h]
  · intro o c s h
    simp [openCheckout, h]

/-- Witness for C4 at the concrete ACTIVE state and the initial state. -/
theorem openCheckout_noop_while_active_witness :
    openCheckout (JSVal.str "other") cbOther activeState = (activeState, []) ∧
    (openCheckout demoOpts cbMain initialState).1.checkoutOptions
      = some demoOpts := by
  refine ⟨?_, ?_⟩
  · exact openCheckout_noop_while_active.1 (JSVal.str "other") cbOther
      activeState rfl
  · exact (openCheckout_noop_while_active.2 demoOpts cbMain
      initialState rfl).1

/-- C3: closeCheckout in the IDLE state (not visible, nothing stored)
invokes no callback, leaves the observable state unchanged (also after the
scheduled clear fires), and is observably idempotent. -/
theorem closeCheckout_idle_noop (s : HookState) (h : IdleState s) :
    (∀ e ∈ (closeCheckout s).2, e.isCallbackCall = false) ∧
    observable (closeCheckout s).1 = observable s ∧
    observable (fireClear (closeCheckout s).1) = observable s ∧
    observable (closeCheckout (closeCheckout s).1).1
      = observable (closeCheckout s).1 := by
  obtain ⟨h1, h2, h3⟩ := h
  refine ⟨?_, ?_, ?_, ?_⟩
  · intro e he
    simp [closeCheckout, h3] at he
    rcases he with rfl | rfl <;> rfl
  · simp [closeCheckout, observable, h1]
  · simp [closeCheckout, fireClear, observable, h1, h2, h3]
  · simp [closeCheckout, observable]

/-- Witness for C3 at the concrete initial state. -/
theorem closeCheckout_idle_noop_witness :
    observable (closeCheckout initialState).1 = observable initialState :=
  (closeCheckout_idle_noop initialState ⟨rfl, rfl, rfl⟩).2.1

/-- C5: closeCheckout from a state holding a request performs, in order:
set visibility false, then invoke onClose synchronously when provided,
then schedule the clear after 100ms; the stored options and callbacks are
not cleared immediately. -/
theorem closeCheckout_effect_order (s : HookState) (c : CheckoutCallbacks)
    (h : s.callbacks = some c) :
    (closeCheckout s).2 =
      Eff.setVisible false ::
        ((if c.hasOnClose then [Eff.callOnClose c] else []) ++
          [Eff.scheduleClear 100]) ∧
    (closeCheckout s).1.isVisible = false ∧
    (closeCheckout s).1.checkoutOptions = s.checkoutOptions ∧
    (closeCheckout s).1.callbacks = s.callbacks ∧
    (closeCheckout s).1.pendingClears = s.pendingClears + 1 := by
  refine ⟨?_, rfl, rfl, rfl, rfl⟩
  simp [closeCheckout, h]

/-- Witness for C5 at the concrete ACTIVE state. -/
theorem closeCheckout_effect_order_witness :
    (closeCheckout activeState).2 =
      Eff.setVisible false ::
        ((if cbMain.hasOnClose then [Eff.callOnClose cbMain] else []) ++
          [Eff.scheduleClear 100]) :=
  (closeCheckout_effect_order activeState cbMain rfl).1

/-- C10: the openCheckout throttle reads only the visibility flag, so an
openCheckout issued after closeCheckout but before the scheduled 100ms
clear fires does succeed (stores the new request and callbacks, sets
visibility), and when the earlier scheduled clear then fires it nulls the
newly stored request and callbacks while visibility stays true. -/
theorem openCheckout_throttle_visibility_only (s : HookState) (o : JSVal)
    (c : CheckoutCallbacks) :
    (openCheckout o c (closeCheckout s).1).1.isVisible = true ∧
    (openCheckout o c (closeCheckout s).1).1.checkoutOptions = some o ∧
    (openCheckout o c (closeCheckout s).1).1.callbacks = some c ∧
    (fireClear (openCheckout o c (closeCheckout s).1).1).isVisible = true ∧
    (fireClear (openCheckout o c (closeCheckout s).1).1).checkoutOptions
      = none ∧
    (fireClear (openCheckout o c (closeCheckout s).1).1).callbacks = none ∧
    (∀ s' : HookState, s'.isVisible = true → openCheckout o c s' = (s', [])) ∧
    (∀ s' : HookState, s'.isVisible = false →
        (openCheckout o c s').1.isVisible = true ∧
        (openCheckout o c s').1.checkoutOptions = some o ∧
        (openCheckout o c s').1.callbacks = some c) := by
  refine ⟨?_, ?_, ?_, ?_, ?_, ?_, ?_, ?_⟩
  · simp [closeCheckout, openCheckout]
  · simp [closeCheckout, openCheckout]
  · simp [closeCheckout, openCheckout]
  · simp [closeCheckout, openCheckout, fireClear]
  · simp [closeCheckout, openCheckout, fireClear]
  · simp [closeCheckout, openCheckout, fireClear]
  · intro s' h
    simp [openCheckout, h]
  · intro s' h
    simp [openCheckout, h]

/-- Witness for C10 at the concrete ACTIVE state. -/
theorem openCheckout_throttle_visibility_only_witness :
    (fireClear (openCheckout demoOpts cbOther
        (closeCheckout activeState).1).1).isVisible = true ∧
    openCheckout demoOpts cbOther activeState = (activeState, []) := by
  refine ⟨?_, ?_⟩
  · exact (openCheckout_throttle_visibility_only activeState demoOpts
      cbOther).2.2.2.1
  · exact (openCheckout_throttle_visibility_only activeState demoOpts
      cbOther).2.2.2.2.2.2.1 activeState rfl

/-- C6: a DISMISSED message from the widget (the bridge's PAYMENT_CLOSED
message) delivered to a mounted session whose callbacks provide onClose
produces exactly the close-then-cleanup effect sequence: visibility goes
false, onClose fires, and no onFailure (nor any failure synthesized from
the cancellation) is invoked. -/
theorem dismissed_routes_to_onclose (s : HookState) (c : CheckoutCallbacks)
    (o : JSVal) (hv : s.isVisible = true) (ho : s.checkoutOptions = some o)
    (hc : s.callbacks = some c) (hcl : c.hasOnClose = true) :
    (deliverMessage mkClosedMsg s).2 =
      [Eff.setVisible false, Eff.callOnClose c, Eff.scheduleClear 100] ∧
    (∀ e ∈ (deliverMessage mkClosedMsg s).2, e.isFailureCall = false) ∧
    (deliverMessage mkClosedMsg s).1.isVisible = false := by
  have e1 : (mkClosedMsg.get "type").isStr "PAYMENT_SUCCESS" = false := rfl
  have e2 : (mkClosedMsg.get "type").isStr "PAYMENT_FAILED" = false := rfl
  have e3 : (mkClosedMsg.get "type").isStr "PAYMENT_CLOSED" = true := rfl
  have hd : deliverMessage mkClosedMsg s = closeCheckout s := by
    simp [deliverMessage, hv, ho, hc, e1, e2, e3]
  rw [hd]
  refine ⟨?_, ?_, ?_⟩
  · simp [closeCheckout, hc, hcl]
  · intro e he
    simp [closeCheckout, hc, hcl] at he
    rcases he with rfl | rfl | rfl <;> rfl
  · simp [closeCheckout]

/-- Witness for C6 at the concrete ACTIVE state. -/
theorem dismissed_routes_to_onclose_witness :
    (deliverMessage mkClosedMsg activeState).2 =
      [Eff.setVisible false, Eff.callOnClose cbMain, Eff.scheduleClear 100] :=
  (dismissed_routes_to_onclose activeState cbMain demoOpts rfl rfl rfl rfl).1

/-- C2 (code bug): when the widget reports a payment failure with error
object `gatewayError`, the host's onFailure is invoked once but receives
`undefined` instead of the error object: the injected script posts the
flat error (`error: response.error`), and the hook wrapper unwraps
`.error` a second time. The repository's own docs and its
`CheckoutCallbacks` declaration promise the host the flat
{code, description, source, step, reason} object. -/
theorem failure_payload_dropped_bug :
    callbackCallsFor cbMain
        (run [Act.openC demoOpts cbMain,
              Act.msg (mkFailedMsg failedWidgetResponse)] initialState).2 =
      [Eff.callOnFailure cbMain JSVal.undefined] ∧
    gatewayError.get "code" = JSVal.str "GATEWAY_ERROR" ∧
    JSVal.undefined.get "code" = JSVal.undefined :=
  ⟨rfl, rfl, rfl⟩

/-- C1 (counterexample): after a session ends with onSuccess, a host
closeCheckout call issued before the scheduled 100ms clear fires still
invokes onClose for the same session — the callback calls delivered to
the session are onSuccess followed by onClose, contradicting the claim
that onClose never fires after a terminal callback. -/
theorem onclose_after_terminal_counterexample :
    callbackCallsFor cbMain
        (run [Act.openC demoOpts cbMain,
              Act.msg (mkSuccessMsg successResponse),
              Act.closeC] initialState).2 =
      [Eff.callOnSuccess cbMain successResponse, Eff.callOnClose cbMain] :=
  rfl

/-- A string starting with "https" also starts with "http". -/
theorem https_imp_http (u : String)
    (h : jsStartsWith u "https" = true) : jsStartsWith u "http" = true := by
  unfold jsStartsWith at h ⊢
  rw [List.isPrefixOf_iff_prefix] at h ⊢
  exact List.IsPrefix.trans (by decide) h

/-- C7 (counterexample): for the URL "httpx://pay" the scheme "httpx" is
not a web scheme and the URL is not the blank placeholder page, yet
handleNavigation returns "load normally" with no external dispatch: the
source tests the string prefix "http", not the URL's scheme. -/
theorem navigation_scheme_counterexample :
    urlScheme "httpx://pay" = "httpx" ∧
    isWebScheme (urlScheme "httpx://pay") = false ∧
    jsStartsWith "httpx://pay" "about:blank" = false ∧
    handleNavigation "httpx://pay" (Except.ok ()) = (true, []) := by
  refine ⟨by decide, by decide, by decide, rfl⟩

/-- C7 (amended): the bridge intercepts by string prefix rather than by
parsed scheme: a URL that does not start with "http" (hence not with
"https" either) and does not start with "about:blank" is refused ("do not
load") and dispatched to the OS external-link opener; every URL starting
with "http" — in particular every http/https URL — or with "about:blank"
is loaded normally with no external dispatch. -/
theorem navigation_interception_amended (url : String)
    (d : Except String Unit) :
    (jsStartsWith url "http" = false →
      jsStartsWith url "about:blank" = false →
        (handleNavigation url d).1 = false ∧
        Eff.openExternal url ∈ (handleNavigation url d).2) ∧
    (jsStartsWith url "http" = true ∨
        jsStartsWith url "about:blank" = true →
      handleNavigation url d = (true, [])) := by
  constructor
  · intro h1 h3
    have h2 : jsStartsWith url "https" = false := by
      cases hx : jsStartsWith url "https"
      · rfl
      · rw [https_imp_http url hx] at h1
        exact Bool.noConfusion h1
    unfold handleNavigation
    rw [h1, h2, h3]
    cases d <;> simp
  · intro h
    rcases h with h | h
    · simp [handleNavigation, h]
    · simp [handleNavigation, h]

/-- Witness for C7's amended statement at the concrete URLs of the spec's
P5 scenario. -/
theorem navigation_interception_amended_witness :
    ((handleNavigation "upi://pay" (Except.ok ())).1 = false ∧
      Eff.openExternal "upi://pay"
        ∈ (handleNavigation "upi://pay" (Except.ok ())).2) ∧
    handleNavigation "https://checkout.example.com/a" (Except.ok ())
      = (true, []) :=
  ⟨(navigation_interception_amended "upi://pay" (Except.ok ())).1
      (by decide) (by decide),
   (navigation_interception_amended "https://checkout.example.com/a"
      (Except.ok ())).2 (Or.inl (by decide))⟩

/-- C8: when the OS external-link dispatch fails for a non-web URL, the
failure is swallowed at the bridge boundary: handleNavigation still
returns normally with the "do not load" decision and performs only the
dispatch attempt plus a log entry; no callback (in particular no
onFailure) is invoked, and the hook state is untouched. -/
theorem dispatch_failure_swallowed (url e : String) (s : HookState)
    (h1 : jsStartsWith url "http" = false)
    (h3 : jsStartsWith url "about:blank" = false) :
    handleNavigation url (Except.error e) =
      (false, [Eff.openExternal url,
               Eff.logError "Couldnt open UPI app"]) ∧
    (∀ eff ∈ (handleNavigation url (Except.error e)).2,
        eff.isCallbackCall = false) ∧
    (step (Act.nav url (Except.error e)) s).1 = s := by
  have h2 : jsStartsWith url "https" = false := by
    cases hx : jsStartsWith url "https"
    · rfl
    · rw [https_imp_http url hx] at h1
      exact Bool.noConfusion h1
  have hn : handleNavigation url (Except.error e) =
      (false, [Eff.openExternal url,
               Eff.logError "Couldnt open UPI app"]) := by
    unfold handleNavigation
    rw [h1, h2, h3]
    rfl
  refine ⟨hn, ?_, rfl⟩
  intro eff he
  rw [hn] at he
  simp at he
  rcases he with rfl | rfl <;> rfl

/-- Witness for C8 at the concrete deep-link URL. -/
theorem dispatch_failure_swallowed_witness :
    handleNavigation "upi://pay" (Except.error "no app") =
      (false, [Eff.openExternal "upi://pay",
               Eff.logError "Couldnt open UPI app"]) :=
  (dispatch_failure_swallowed "upi://pay" "no app" initialState
    (by decide) (by decide)).1

/-- One step delivers no more terminal callbacks to `c` than it opens
sessions for `c`, with the live-session indicator as the accounting
potential: a terminal delivery consumes the indicator (it unmounts the
surface), and only an openCheckout carrying `c` can raise it. -/
theorem step_terminals (c : CheckoutCallbacks) (a : Act) (s : HookState) :
    terminalsFor c (step a s).2 + sessInd c (step a s).1
      ≤ actOpens c a + sessInd c s := by
  cases a with
  | openC o c' =>
      by_cases hv : s.isVisible
      · by_cases hc : c' = c <;>
          simp [step, openCheckout, hv, terminalsFor, actOpens, hc]
      · rw [Bool.not_eq_true] at hv
        by_cases hc : c' = c <;>
          simp [step, openCheckout, hv, terminalsFor, actOpens, hc, sessInd,
            Eff.isTerminalFor]
  | closeC =>
      rcases hcb : s.callbacks with _ | c''
      · simp [step, closeCheckout, hcb, terminalsFor, actOpens, sessInd,
          Eff.isTerminalFor]
      · by_cases hon : c''.hasOnClose <;>
          simp [step, closeCheckout, hcb, hon, terminalsFor, actOpens,
            sessInd, Eff.isTerminalFor]
  | fireC =>
      by_cases hp : s.pendingClears = 0
      · simp [step, fireClear, hp, terminalsFor]
      · simp [step, fireClear, hp, terminalsFor, sessInd, actOpens]
  | nav u d =>
      have hz : terminalsFor c (handleNavigation u d).2 = 0 := by
        unfold handleNavigation
        split
        · cases d <;> simp [terminalsFor, Eff.isTerminalFor]
        · simp [terminalsFor]
      simp [step, hz, actOpens]
  | msg m =>
      rcases s with ⟨vis, co, cb, p⟩
      cases vis with
      | false => simp [step, deliverMessage, terminalsFor, actOpens]
      | true =>
          cases co with
          | none => simp [step, deliverMessage, terminalsFor, actOpens]
          | some o =>
              cases cb with
              | none => simp [step, deliverMessage, terminalsFor, actOpens]
              | some c'' =>
                  by_cases hs : ((m.get "type").isStr "PAYMENT_SUCCESS")
                      = true
                  · by_cases hc : c'' = c <;>
                      simp [step, deliverMessage, hs, cleanup, terminalsFor,
                        Eff.isTerminalFor, sessInd, actOpens, hc]
                  · rw [Bool.not_eq_true] at hs
                    by_cases hf : ((m.get "type").isStr "PAYMENT_FAILED")
                        = true
                    · by_cases hc : c'' = c <;>
                        simp [step, deliverMessage, hs, hf, cleanup,
                          terminalsFor, Eff.isTerminalFor, sessInd, actOpens,
                          hc]
                    · rw [Bool.not_eq_true] at hf
                      by_cases hd : ((m.get "type").isStr "PAYMENT_CLOSED")
                          = true
                      · by_cases hon : c''.hasOnClose <;>
                          simp [step, deliverMessage, hs, hf, hd,
                            closeCheckout, hon, terminalsFor,
                            Eff.isTerminalFor, sessInd, actOpens]
                      · rw [Bool.not_eq_true] at hd
                        simp [step, deliverMessage, hs, hf, hd, terminalsFor,
                          actOpens]

/-- Over any action sequence, the terminal callbacks delivered to `c` are
bounded by the openCheckout calls carrying `c` plus the initial
live-session indicator. -/
theorem run_terminals (c : CheckoutCallbacks) (acts : List Act) :
    ∀ s : HookState,
      terminalsFor c (run acts s).2 ≤ opensFor c acts + sessInd c s := by
  induction acts with
  | nil =>
      intro s
      simp [run, terminalsFor, opensFor]
  | cons a rest ih =>
      intro s
      have h1 := step_terminals c a s
      have h2 := ih (step a s).1
      have hr : (run (a :: rest) s).2
          = (step a s).2 ++ (run rest (step a s).1).2 := rfl
      rw [hr]
      unfold terminalsFor at h1 h2 ⊢
      rw [List.countP_append]
      have ho : opensFor c (a :: rest) = actOpens c a + opensFor c rest := by
        simp [opensFor]
      omega

/-- C1 (amended): per opened session at most one terminal callback
(onSuccess or onFailure) fires, and after a terminal callback no widget
message can invoke any further callback for that session (a message
arriving while not visible is a no-op, and a terminal delivery leaves the
surface not visible); however onClose can still fire after a terminal
callback when the host itself calls closeCheckout before the scheduled
100ms clear has fired, because closeCheckout consults the stored
callbacks, not the visibility flag. -/
theorem terminal_callback_exclusivity_amended :
    (∀ (acts : List Act) (c : CheckoutCallbacks),
        opensFor c acts ≤ 1 →
        terminalsFor c (run acts initialState).2 ≤ 1) ∧
    (∀ (m : JSVal) (s : HookState),
        s.isVisible = false → deliverMessage m s = (s, [])) ∧
    (∀ (m : JSVal) (s : HookState) (c : CheckoutCallbacks),
        0 < terminalsFor c (deliverMessage m s).2 →
        (deliverMessage m s).1.isVisible = false) ∧
    (∀ (s : HookState) (c : CheckoutCallbacks),
        s.isVisible = false → s.callbacks = some c → c.hasOnClose = true →
        Eff.callOnClose c ∈ (closeCheckout s).2) := by
  refine ⟨?_, ?_, ?_, ?_⟩
  · intro acts c h
    have h1 := run_terminals c acts initialState
    have h0 : sessInd c initialState = 0 := by
      simp [sessInd, initialState]
    omega
  · intro m s h
    rcases s with ⟨vis, co, cb, p⟩
    simp at h
    subst h
    rfl
  · intro m s c h
    rcases s with ⟨vis, co, cb, p⟩
    cases vis with
    | false => simp [deliverMessage, terminalsFor] at h
    | true =>
        cases co with
        | none => simp [deliverMessage, terminalsFor] at h
        | some o =>
            cases cb with
            | none => simp [deliverMessage, terminalsFor] at h
            | some c'' =>
                by_cases hs : ((m.get "type").isStr "PAYMENT_SUCCESS") = true
                · simp [deliverMessage, hs, cleanup]
                · rw [Bool.not_eq_true] at hs
                  by_cases hf : ((m.get "type").isStr "PAYMENT_FAILED") = true
                  · simp [deliverMessage, hs, hf, cleanup]
                  · rw [Bool.not_eq_true] at hf
                    by_cases hd : ((m.get "type").isStr "PAYMENT_CLOSED")
                        = true
                    · simp [deliverMessage, hs, hf, hd, closeCheckout]
                    · rw [Bool.not_eq_true] at hd
                      simp [deliverMessage, hs, hf, hd, terminalsFor] at h
  · intro s c h1 h2 h3
    simp [closeCheckout, h2, h3]

/-- Witness for C1's amended statement: the scenario trace (open, SUCCESS
message, closeCheckout inside the clear window) delivers one terminal; a
message to the idle state is a no-op; closeCheckout right after cleanup
still fires onClose. -/
theorem terminal_callback_exclusivity_amended_witness :
    terminalsFor cbMain
        (run [Act.openC demoOpts cbMain,
              Act.msg (mkSuccessMsg successResponse),
              Act.closeC] initialState).2 ≤ 1 ∧
    deliverMessage mkClosedMsg initialState = (initialState, []) ∧
    (deliverMessage (mkSuccessMsg successResponse) activeState).1.isVisible
      = false ∧
    Eff.callOnClose cbMain ∈ (closeCheckout (cleanup activeState).1).2 :=
  ⟨terminal_callback_exclusivity_amended.1 _ cbMain (by decide),
   terminal_callback_exclusivity_amended.2.1 mkClosedMsg initialState rfl,
   terminal_callback_exclusivity_amended.2.2.1 (mkSuccessMsg successResponse)
     activeState cbMain (by decide),
   terminal_callback_exclusivity_amended.2.2.2 (cleanup activeState).1 cbMain
     rfl rfl rfl⟩

end ExpoRazorpay
